import Mathlib

/-!
Verification of the SSID resolver (`src/main.py`).

The program shells out to platform utilities and parses their output.  We
embed its control flow shallowly: each external effect (the behaviour of an
invoked command, the result of the standard JSON decoder) is an explicit
input, and the Python functions become pure Lean functions from those inputs
to an outcome together with the list of log records they emit.  Machine
strings are Lean `String`s; Python exceptions become explicit outcome
constructors.
-/

namespace SSID

/-- Python logging severity constants (logging.DEBUG etc.). -/
def DEBUG : Nat := 10

def INFO : Nat := 20

def WARNING : Nat := 30

def ERROR : Nat := 40

def CRITICAL : Nat := 50

/-- One record sent to the logging module: severity level and message. -/
structure LogEntry where
  level : Nat
  msg : String
deriving DecidableEq, Repr

/-- Behaviour of a command invoked through `subprocess.check_output` (used for
netsh, airport and iwgetid, all without a timeout): either the executable is
missing (raising FileNotFoundError) or it runs to completion with an exit
code and captured stdout. -/
inductive CmdCheck where
  | missing
  | ran (exitCode : Int) (stdout : String)
deriving DecidableEq, Repr

/-- Behaviour of the preferred Linux command invoked through `subprocess.run`
with `timeout=10`: missing executable, or a run lasting `duration` seconds
that would end with the given exit code, stdout and stderr. -/
inductive PrefBehavior where
  | missing
  | runs (duration : Nat) (exitCode : Int) (stdout stderr : String)
deriving DecidableEq, Repr

/-- What `subprocess.run(..., timeout=t)` observes for a given behaviour. -/
inductive RunOutcome where
  | fnf
  | timedOut
  | completed (exitCode : Int) (stdout stderr : String)
deriving DecidableEq, Repr

/-- `subprocess.run` with a wall-clock timeout of `t` seconds raises
TimeoutExpired when the child runs longer than `t`. -/
def subprocessRunTimeout (t : Nat) : PrefBehavior → RunOutcome
  | .missing => .fnf
  | .runs d code out err => if t < d then .timedOut else .completed code out err

/-- Result of `json.loads` on the preferred command output, as far as the
program inspects it: a decode error, a JSON object (a dict, of which the
program reads only `info.get("ssid")`, `none` when the field is absent or
null), or a well-formed JSON value that is not an object (on which the
subsequent `.get` attribute access raises AttributeError). -/
inductive JsonParse where
  | error
  | obj (ssid : Option String)
  | nonObj
deriving DecidableEq, Repr

/-- Outcome of one Python strategy function or of the dispatcher: a normal
return (`none` models Python None), a raised ExtractionError, a raised
NotSupportedError, or any other exception class escaping (named). -/
inductive Outcome where
  | ret (ssid : Option String)
  | extractionError (msg : String)
  | notSupported (msg : String)
  | pyError (excName : String)
deriving DecidableEq, Repr

/-- True exactly for the `ExtractionError` (Failed) outcome. -/
def Outcome.isFailed : Outcome → Bool
  | .extractionError _ => true
  | _ => false

/-- Run of a strategy: its outcome, the log records it emitted, and how many
times the Linux fallback command was spawned during it. -/
structure StratRun where
  outcome : Outcome
  log : List LogEntry
  fbCalls : Nat
deriving DecidableEq, Repr

/-- The six ASCII characters Python `str.strip()` and the regex class `\s`
treat as whitespace. -/
def isPySpace (c : Char) : Bool :=
  c = ' ' || c = '\t' || c = '\n' || c = '\r' || c = '\x0b' || c = '\x0c'

/-- `str.strip()` on a character list: drop whitespace from both ends. -/
def stripChars (l : List Char) : List Char :=
  ((l.dropWhile isPySpace).reverse.dropWhile isPySpace).reverse

/-- Python `str.strip()`. -/
def pyStrip (s : String) : String :=
  ⟨stripChars s.data⟩

/-- Attempt to match the Windows pattern `SSID\s+:\s(.*)` at the start of the
character list, returning the text captured by `(.*)` (which, without
re.DOTALL, stops at the next newline).  Since `:` is not a whitespace
character, the backtracking of `\s+` reduces to: a maximal nonempty
whitespace run must be followed by `:`. -/
def winMatchAt (l : List Char) : Option (List Char) :=
  match l with
  | 'S' :: 'S' :: 'I' :: 'D' :: rest =>
    let wsLen := (rest.takeWhile isPySpace).length
    if wsLen = 0 then none
    else
      match rest.drop wsLen with
      | ':' :: c :: tail =>
        if isPySpace c then some (tail.takeWhile (fun d => d ≠ '\n')) else none
      | _ => none
  | _ => none

/-- Attempt to match the macOS pattern `SSID:\s(.*)` at the start of the
character list. -/
def macMatchAt (l : List Char) : Option (List Char) :=
  match l with
  | 'S' :: 'S' :: 'I' :: 'D' :: ':' :: c :: tail =>
    if isPySpace c then some (tail.takeWhile (fun d => d ≠ '\n')) else none
  | _ => none

/-- `re.search`: try the pattern at each successive start position, returning
the capture of the leftmost match. -/
def reSearch (m : List Char → Option (List Char)) : List Char → Option (List Char)
  | [] => m []
  | c :: rest =>
    match m (c :: rest) with
    | some cap => some cap
    | none => reSearch m rest

/-- `_get_ssid_windows`: run `netsh wlan show interfaces` via check_output;
CalledProcessError (nonzero exit) and FileNotFoundError are converted to
ExtractionError; otherwise search the output for `SSID\s+:\s(.*)` and return
the stripped capture, or None when the pattern is absent. -/
def get_ssid_windows (cmd : CmdCheck) : StratRun :=
  match cmd with
  | .missing =>
    { outcome := .extractionError
        ("Error executing netsh command on Windows: " ++ "FileNotFoundError")
      log := [], fbCalls := 0 }
  | .ran code out =>
    if code = 0 then
      match reSearch winMatchAt out.data with
      | some cap => { outcome := .ret (some ⟨stripChars cap⟩), log := [], fbCalls := 0 }
      | none => { outcome := .ret none, log := [], fbCalls := 0 }
    else
      { outcome := .extractionError
          ("Error executing netsh command on Windows: " ++ "CalledProcessError")
        log := [], fbCalls := 0 }

/-- `_get_ssid_darwin`: run the fixed-path airport binary with `-I` via
check_output; same exception handling as Windows; search the output for
`SSID:\s(.*)`. -/
def get_ssid_darwin (cmd : CmdCheck) : StratRun :=
  match cmd with
  | .missing =>
    { outcome := .extractionError
        ("Error executing airport command on macOS: " ++ "FileNotFoundError")
      log := [], fbCalls := 0 }
  | .ran code out =>
    if code = 0 then
      match reSearch macMatchAt out.data with
      | some cap => { outcome := .ret (some ⟨stripChars cap⟩), log := [], fbCalls := 0 }
      | none => { outcome := .ret none, log := [], fbCalls := 0 }
    else
      { outcome := .extractionError
          ("Error executing airport command on macOS: " ++ "CalledProcessError")
        log := [], fbCalls := 0 }

/-- The fallback block of `_get_ssid_linux`: `iwgetid -r` via check_output,
output stripped; `return output if output else None`; CalledProcessError and
FileNotFoundError become ExtractionError. -/
def linuxFallback (fb : CmdCheck) : StratRun :=
  match fb with
  | .missing =>
    { outcome := .extractionError
        ("Error executing fallback iwgetid command on Linux: " ++ "FileNotFoundError")
      log := [], fbCalls := 1 }
  | .ran code out =>
    if code = 0 then
      let s := pyStrip out
      { outcome := .ret (if s = "" then none else some s), log := [], fbCalls := 1 }
    else
      { outcome := .extractionError
          ("Error executing fallback iwgetid command on Linux: " ++ "CalledProcessError")
        log := [], fbCalls := 1 }

/-- `_get_ssid_linux`: run `termux-wifi-connectioninfo` via subprocess.run
with `check=False, timeout=10`.  Nonzero exit and empty/whitespace stdout
raise ExtractionError, which — like TimeoutExpired — is caught by the
`except (ExtractionError, subprocess.TimeoutExpired)` clause, logged as a
warning, and answered by the iwgetid fallback.  A JSONDecodeError from
`json.loads` is caught by its own clause, logged as an error, and re-raised
as ExtractionError (the fallback clause of the same try does not catch it).
FileNotFoundError from the preferred invocation is caught by no clause, and
neither is the AttributeError that `info.get` raises when the decoded JSON
is not an object; both escape the function.  `jl` is the behaviour of
`json.loads` on the captured stdout. -/
def get_ssid_linux (jl : String → JsonParse) (pref : PrefBehavior) (fb : CmdCheck) :
    StratRun :=
  match subprocessRunTimeout 10 pref with
  | .fnf => { outcome := .pyError "FileNotFoundError", log := [], fbCalls := 0 }
  | .timedOut =>
    let r := linuxFallback fb
    { r with log :=
        ⟨WARNING, "Termux-api failed: TimeoutExpired. Falling back to iwgetid."⟩ :: r.log }
  | .completed code out err =>
    if code ≠ 0 then
      let r := linuxFallback fb
      { r with log :=
          ⟨DEBUG, "termux-wifi-connectioninfo failed with exit code " ++
            toString code ++ ". Stderr: " ++ pyStrip err⟩ ::
          ⟨WARNING, "Termux-api failed: termux-wifi-connectioninfo failed, falling back.. Falling back to iwgetid."⟩ ::
          r.log }
    else if pyStrip out = "" then
      let r := linuxFallback fb
      { r with log :=
          ⟨DEBUG, "termux-wifi-connectioninfo returned empty output, likely a permissions issue. Falling back."⟩ ::
          ⟨WARNING, "Termux-api failed: termux-wifi-connectioninfo returned empty output.. Falling back to iwgetid."⟩ ::
          r.log }
    else
      match jl out with
      | .error =>
        { outcome := .extractionError ("Error parsing termux-api output: " ++ "JSONDecodeError")
          log := [⟨ERROR, "Failed to parse JSON from termux-wifi-connectioninfo. Raw output: " ++ pyStrip out⟩]
          fbCalls := 0 }
      | .obj ssid => { outcome := .ret ssid, log := [], fbCalls := 0 }
      | .nonObj => { outcome := .pyError "AttributeError", log := [], fbCalls := 0 }

/-- Inputs the program observes in one run: the host identification from
`platform.system()`, the behaviour of each external command it may spawn,
and the logging threshold configured from LOG_LEVEL (a level number;
logging.basicConfig suppresses records below it). -/
structure Env where
  osName : String
  logThreshold : Nat
  winCmd : CmdCheck
  prefCmd : PrefBehavior
  fbCmd : CmdCheck
  macCmd : CmdCheck

/-- `get_current_ssid`: dispatch on `platform.system()`; any other value
raises NotSupportedError. -/
def get_current_ssid (jl : String → JsonParse) (env : Env) : StratRun :=
  if env.osName = "Windows" then get_ssid_windows env.winCmd
  else if env.osName = "Linux" then get_ssid_linux jl env.prefCmd env.fbCmd
  else if env.osName = "Darwin" then get_ssid_darwin env.macCmd
  else
    { outcome := .notSupported ("Operating system " ++ env.osName ++ " is not supported.")
      log := [], fbCalls := 0 }

/-- Result of running the Python `main()` process body: a normal return value
or an exception class escaping uncaught. -/
inductive PyResult where
  | ok (ssid : Option String)
  | raised (excName : String)
deriving DecidableEq, Repr

/-- `main()`: log the start message, call `get_current_ssid`, and on a normal
return apply Python truthiness (`if ssid:`) — None and the empty string both
log a warning and yield None.  NotSupportedError is logged critical and
ExtractionError is logged error, both yielding None; any other exception
escapes.  The emitted log keeps only records at or above the configured
threshold. -/
def mainRun (jl : String → JsonParse) (env : Env) : PyResult × List LogEntry :=
  let r := get_current_ssid jl env
  let (res, tail) : PyResult × List LogEntry :=
    match r.outcome with
    | .ret (some s) =>
      if s = "" then (.ok none, [⟨WARNING, "No SSID found or not connected to a Wi-Fi network."⟩])
      else (.ok (some s), [⟨INFO, "Connected SSID: " ++ s⟩])
    | .ret none => (.ok none, [⟨WARNING, "No SSID found or not connected to a Wi-Fi network."⟩])
    | .notSupported m => (.ok none, [⟨CRITICAL, m⟩])
    | .extractionError m => (.ok none, [⟨ERROR, "Failed to extract SSID: " ++ m⟩])
    | .pyError n => (.raised n, [])
  (res, (⟨INFO, "Starting SSID extraction..."⟩ :: r.log ++ tail).filter
    (fun e => env.logThreshold ≤ e.level))

/-- Split a character list into lines at newline characters (Python
`str.splitlines` restricted to the newline separator). -/
def splitOnNl : List Char → List (List Char)
  | [] => [[]]
  | '\n' :: rest => [] :: splitOnNl rest
  | c :: rest =>
    match splitOnNl rest with
    | [] => [[c]]
    | l :: ls => (c :: l) :: ls

/-- Phrased from the specification, for comparison with the code: the output
contains a marker line BEGINNING with `SSID` followed by (whitespace and)
`:` — i.e. the Windows pattern matches at the start of some line. -/
def specHasWinMarkerLine (s : String) : Bool :=
  (splitOnNl s.data).any (fun l => (winMatchAt l).isSome)

/-- A preferred-command behaviour that soft-fails (exit code 1 within the
timeout), used to exercise the fallback block through `get_ssid_linux`. -/
def softFailPref : PrefBehavior := .runs 0 1 "" ""

/-- The environment of the end-to-end example of claim C1: Linux host, the
preferred command not installed, the fallback printing CafeWiFi. -/
def cafeEnv : Env :=
  { osName := "Linux", logThreshold := INFO, winCmd := .missing,
    prefCmd := .missing, fbCmd := .ran 0 "CafeWiFi\n", macCmd := .missing }

/-- An environment whose host identification is none of the three supported
systems. -/
def cafeJavaEnv : Env :=
  { osName := "Java", logThreshold := INFO, winCmd := .missing,
    prefCmd := .missing, fbCmd := .missing, macCmd := .missing }

/-- Claim C1 (code evaluation at the failing input): on Linux with the
preferred command missing and the fallback printing CafeWiFi, the strategy
does NOT fall back — FileNotFoundError escapes it (the `except
(ExtractionError, subprocess.TimeoutExpired)` clause does not catch it), the
fallback is never invoked, and the process-level run raises instead of
returning CafeWiFi. -/
theorem claim1_missing_preferred_crashes :
    (get_ssid_linux (fun _ => .error) .missing (.ran 0 "CafeWiFi\n")).outcome =
      .pyError "FileNotFoundError" ∧
    (get_ssid_linux (fun _ => .error) .missing (.ran 0 "CafeWiFi\n")).fbCalls = 0 ∧
    (mainRun (fun _ => .error) cafeEnv).1 = .raised "FileNotFoundError" := by
  refine ⟨rfl, rfl, ?_⟩
  rfl

/-- Claim C2 (code evaluation at the failing input): `main` catches only
NotSupportedError and ExtractionError, so the FileNotFoundError raised by
the Linux strategy when the preferred command is missing terminates the run
uncaught: the result is a propagated exception, not an absent value. -/
theorem claim2_uncaught_failure_escapes_main :
    (mainRun (fun _ => .error) cafeEnv).1 = .raised "FileNotFoundError" ∧
    ∀ o : Option String, (mainRun (fun _ => .error) cafeEnv).1 ≠ .ok o := by
  refine ⟨rfl, ?_⟩
  intro o h
  cases h

/-- Claim C3: on Linux, when the preferred command finishes within the
timeout with exit code 0 and non-empty (after stripping) stdout on which
`json.loads` fails, the strategy raises ExtractionError (Failed) at once and
the fallback command is never invoked. -/
theorem claim3_malformed_json_hard_failure
    (jl : String → JsonParse) (fb : CmdCheck) (d : Nat) (out err : String)
    (hd : d ≤ 10) (hout : pyStrip out ≠ "") (hjl : jl out = .error) :
    (get_ssid_linux jl (.runs d 0 out err) fb).outcome.isFailed = true ∧
    (get_ssid_linux jl (.runs d 0 out err) fb).fbCalls = 0 := by
  have h10 : ¬ 10 < d := Nat.not_lt.mpr hd
  simp [get_ssid_linux, subprocessRunTimeout, h10, hout, hjl, Outcome.isFailed]

/-- Witness for C3: stdout `garbage` that the decoder rejects yields Failed
with no fallback call. -/
theorem claim3_witness :
    (get_ssid_linux (fun _ => .error) (.runs 1 0 "garbage" "") (.ran 0 "X")).outcome.isFailed
      = true ∧
    (get_ssid_linux (fun _ => .error) (.runs 1 0 "garbage" "") (.ran 0 "X")).fbCalls = 0 :=
  claim3_malformed_json_hard_failure (fun _ => .error) (.ran 0 "X") 1 "garbage" ""
    (by decide) (by decide) rfl

/-- Claim C4: each preferred-command soft failure — non-zero exit within the
timeout, zero exit with empty or whitespace-only stdout, and a run exceeding
the 10-second limit — invokes the fallback exactly once, and a timeout
produces the same outcome as a non-zero exit does for the same fallback
behaviour. -/
theorem claim4_soft_failures_invoke_fallback_once
    (jl : String → JsonParse) (fb : CmdCheck) (d : Nat) (code : Int) (out err : String) :
    (d ≤ 10 → code ≠ 0 → (get_ssid_linux jl (.runs d code out err) fb).fbCalls = 1) ∧
    (d ≤ 10 → pyStrip out = "" → (get_ssid_linux jl (.runs d 0 out err) fb).fbCalls = 1) ∧
    (10 < d → (get_ssid_linux jl (.runs d code out err) fb).fbCalls = 1) ∧
    (10 < d → (get_ssid_linux jl (.runs d code out err) fb).outcome =
      (get_ssid_linux jl softFailPref fb).outcome) := by
  refine ⟨?_, ?_, ?_, ?_⟩
  · intro hd hcode
    have h10 : ¬ 10 < d := Nat.not_lt.mpr hd
    simp [get_ssid_linux, subprocessRunTimeout, h10, hcode, linuxFallback]
    rcases fb with _ | ⟨c, o⟩
    · simp [linuxFallback]
    · simp [linuxFallback]
      split <;> simp
  · intro hd hout
    have h10 : ¬ 10 < d := Nat.not_lt.mpr hd
    simp [get_ssid_linux, subprocessRunTimeout, h10, hout]
    rcases fb with _ | ⟨c, o⟩
    · simp [linuxFallback]
    · simp [linuxFallback]
      split <;> simp
  · intro hd
    simp [get_ssid_linux, subprocessRunTimeout, hd]
    rcases fb with _ | ⟨c, o⟩
    · simp [linuxFallback]
    · simp [linuxFallback]
      split <;> simp
  · intro hd
    simp [get_ssid_linux, subprocessRunTimeout, hd, softFailPref]

/-- Witness for C4: an 11-second hang against the 10-second limit, a
non-zero exit, and whitespace-only stdout each call the fallback once; the
hang and the non-zero exit produce the same outcome. -/
theorem claim4_witness :
    (get_ssid_linux (fun _ => .error) (.runs 1 2 "x" "") (.ran 0 "Net")).fbCalls = 1 ∧
    (get_ssid_linux (fun _ => .error) (.runs 1 0 " " "")  (.ran 0 "Net")).fbCalls = 1 ∧
    (get_ssid_linux (fun _ => .error) (.runs 11 0 "x" "") (.ran 0 "Net")).fbCalls = 1 ∧
    (get_ssid_linux (fun _ => .error) (.runs 11 0 "x" "") (.ran 0 "Net")).outcome =
      (get_ssid_linux (fun _ => .error) softFailPref (.ran 0 "Net")).outcome :=
  ⟨(claim4_soft_failures_invoke_fallback_once (fun _ => .error) (.ran 0 "Net") 1 2 "x" "").1
      (by decide) (by decide),
   (claim4_soft_failures_invoke_fallback_once (fun _ => .error) (.ran 0 "Net") 1 0 " " "").2.1
      (by decide) (by decide),
   (claim4_soft_failures_invoke_fallback_once (fun _ => .error) (.ran 0 "Net") 11 0 "x" "").2.2.1
      (by decide),
   (claim4_soft_failures_invoke_fallback_once (fun _ => .error) (.ran 0 "Net") 11 0 "x" "").2.2.2
      (by decide)⟩

/-- Claim C5: the fallback command, reached after a preferred soft failure:
success with output empty after stripping returns None (NotFound), success
with non-empty stripped output returns exactly that stripped string, and a
missing command or non-zero exit raises ExtractionError (Failed). -/
theorem claim5_fallback_result_semantics
    (jl : String → JsonParse) (out : String) (code : Int) :
    (pyStrip out = "" →
      (get_ssid_linux jl softFailPref (.ran 0 out)).outcome = .ret none) ∧
    (pyStrip out ≠ "" →
      (get_ssid_linux jl softFailPref (.ran 0 out)).outcome = .ret (some (pyStrip out))) ∧
    (get_ssid_linux jl softFailPref .missing).outcome.isFailed = true ∧
    (code ≠ 0 →
      (get_ssid_linux jl softFailPref (.ran code out)).outcome.isFailed = true) := by
  refine ⟨?_, ?_, ?_, ?_⟩
  · intro h
    simp [get_ssid_linux, subprocessRunTimeout, softFailPref, linuxFallback, h]
  · intro h
    simp [get_ssid_linux, subprocessRunTimeout, softFailPref, linuxFallback, h]
  · simp [get_ssid_linux, subprocessRunTimeout, softFailPref, linuxFallback, Outcome.isFailed]
  · intro h
    simp [get_ssid_linux, subprocessRunTimeout, softFailPref, linuxFallback, h, Outcome.isFailed]

/-- Witness for C5: a fallback printing a newline only yields None, one
printing CafeWiFi yields CafeWiFi, a missing fallback and an exit-1 fallback
each yield Failed. -/
theorem claim5_witness :
    (get_ssid_linux (fun _ => .error) softFailPref (.ran 0 "\n")).outcome = .ret none ∧
    (get_ssid_linux (fun _ => .error) softFailPref (.ran 0 "CafeWiFi\n")).outcome =
      .ret (some (pyStrip "CafeWiFi\n")) ∧
    (get_ssid_linux (fun _ => .error) softFailPref .missing).outcome.isFailed = true ∧
    (get_ssid_linux (fun _ => .error) softFailPref (.ran 1 "\n")).outcome.isFailed = true :=
  ⟨(claim5_fallback_result_semantics (fun _ => .error) "\n" 1).1 (by decide),
   (claim5_fallback_result_semantics (fun _ => .error) "CafeWiFi\n" 1).2.1 (by decide),
   (claim5_fallback_result_semantics (fun _ => .error) "" 1).2.2.1,
   (claim5_fallback_result_semantics (fun _ => .error) "\n" 1).2.2.2 (by decide)⟩

/-- Claim C6, counterexample: the source regexes are not anchored to the
start of a line, so output `BSSID : cafe` — which contains no line beginning
with `SSID` — still matches (at offset 1) and the Windows strategy returns
`cafe` instead of the NotFound the claim requires for marker-less output. -/
theorem claim6_counterexample :
    specHasWinMarkerLine "BSSID : cafe" = false ∧
    (get_ssid_windows (.ran 0 "BSSID : cafe")).outcome = .ret (some "cafe") ∧
    (get_ssid_windows (.ran 0 "BSSID : cafe")).outcome ≠ .ret none := by
  refine ⟨by decide, by decide, by decide⟩

/-- Claim C6 as amended: on successful command output the Windows and macOS
strategies never raise; they return the trimmed capture of the leftmost
match of their pattern anywhere in the output (not only at the start of a
line), and None (NotFound) exactly when the pattern matches nowhere. -/
theorem claim6_pattern_semantics (out : String) :
    (∀ cap, reSearch winMatchAt out.data = some cap →
      (get_ssid_windows (.ran 0 out)).outcome = .ret (some ⟨stripChars cap⟩)) ∧
    (reSearch winMatchAt out.data = none →
      (get_ssid_windows (.ran 0 out)).outcome = .ret none) ∧
    (∀ cap, reSearch macMatchAt out.data = some cap →
      (get_ssid_darwin (.ran 0 out)).outcome = .ret (some ⟨stripChars cap⟩)) ∧
    (reSearch macMatchAt out.data = none →
      (get_ssid_darwin (.ran 0 out)).outcome = .ret none) ∧
    (∃ o, (get_ssid_windows (.ran 0 out)).outcome = .ret o) ∧
    (∃ o, (get_ssid_darwin (.ran 0 out)).outcome = .ret o) := by
  refine ⟨?_, ?_, ?_, ?_, ?_, ?_⟩
  · intro cap h
    simp [get_ssid_windows, h]
  · intro h
    simp [get_ssid_windows, h]
  · intro cap h
    simp [get_ssid_darwin, h]
  · intro h
    simp [get_ssid_darwin, h]
  · rcases h : reSearch winMatchAt out.data with _ | cap <;>
      simp [get_ssid_windows, h]
  · rcases h : reSearch macMatchAt out.data with _ | cap <;>
      simp [get_ssid_darwin, h]

/-- Witness for C6 (amended): a matching Windows output yields the trimmed
capture; a marker-less macOS output yields None. -/
theorem claim6_witness :
    (get_ssid_windows (.ran 0 "SSID : HomeNet \n")).outcome =
      .ret (some ⟨stripChars ("HomeNet ".data)⟩) ∧
    (get_ssid_darwin (.ran 0 "no marker here")).outcome = .ret none :=
  ⟨(claim6_pattern_semantics "SSID : HomeNet \n").1 ("HomeNet ".data) (by decide),
   (claim6_pattern_semantics "no marker here").2.2.2.1 (by decide)⟩

/-- Claim C7: a host identification other than Windows, Linux and Darwin
makes the dispatcher raise NotSupportedError — a distinct outcome, not an
ExtractionError — which `main` catches, logs at CRITICAL severity (strictly
above the ERROR level used for extraction failures), and converts to an
absent result. -/
theorem claim7_unsupported_platform (jl : String → JsonParse) (env : Env)
    (h1 : env.osName ≠ "Windows") (h2 : env.osName ≠ "Linux") (h3 : env.osName ≠ "Darwin") :
    (get_current_ssid jl env).outcome =
      .notSupported ("Operating system " ++ env.osName ++ " is not supported.") ∧
    (get_current_ssid jl env).outcome.isFailed = false ∧
    (mainRun jl env).1 = .ok none ∧
    (env.logThreshold ≤ CRITICAL →
      (⟨CRITICAL, "Operating system " ++ env.osName ++ " is not supported."⟩ : LogEntry) ∈
        (mainRun jl env).2) ∧
    ERROR < CRITICAL := by
  have hdisp : get_current_ssid jl env =
      { outcome := .notSupported ("Operating system " ++ env.osName ++ " is not supported.")
        log := [], fbCalls := 0 } := by
    simp [get_current_ssid, h1, h2, h3]
  refine ⟨by rw [hdisp], by rw [hdisp]; rfl, ?_, ?_, by decide⟩
  · simp [mainRun, hdisp]
  · intro hthr
    simp only [mainRun, hdisp]
    refine List.mem_filter.mpr ⟨by simp, by simpa using hthr⟩

/-- Witness for C7: host identification `Java` with the default INFO
threshold. -/
theorem claim7_witness :
    (get_current_ssid (fun _ => .error) cafeJavaEnv).outcome =
      .notSupported ("Operating system " ++ cafeJavaEnv.osName ++ " is not supported.") ∧
    (get_current_ssid (fun _ => .error) cafeJavaEnv).outcome.isFailed = false ∧
    (mainRun (fun _ => .error) cafeJavaEnv).1 = .ok none ∧
    (cafeJavaEnv.logThreshold ≤ CRITICAL →
      (⟨CRITICAL, "Operating system " ++ cafeJavaEnv.osName ++ " is not supported."⟩ : LogEntry) ∈
        (mainRun (fun _ => .error) cafeJavaEnv).2) ∧
    ERROR < CRITICAL :=
  claim7_unsupported_platform (fun _ => .error) cafeJavaEnv
    (by decide) (by decide) (by decide)

/-- Claim C8: on Linux, exit code 0 with non-empty stdout that decodes to a
JSON object without an `ssid` field makes `info.get("ssid")` return None: the
strategy returns None (treated as NotFound downstream), is not a Failed
outcome, never invokes the fallback, and the resolver run yields an absent
result. -/
theorem claim8_object_without_ssid_field
    (jl : String → JsonParse) (fb winC macC : CmdCheck) (d logT : Nat) (out err : String)
    (hd : d ≤ 10) (hout : pyStrip out ≠ "") (hjl : jl out = .obj none) :
    (get_ssid_linux jl (.runs d 0 out err) fb).outcome = .ret none ∧
    (get_ssid_linux jl (.runs d 0 out err) fb).fbCalls = 0 ∧
    (get_ssid_linux jl (.runs d 0 out err) fb).outcome.isFailed = false ∧
    (mainRun jl
      { osName := "Linux", logThreshold := logT, winCmd := winC,
        prefCmd := .runs d 0 out err, fbCmd := fb, macCmd := macC }).1 = .ok none := by
  have h10 : ¬ 10 < d := Nat.not_lt.mpr hd
  have hstrat : get_ssid_linux jl (.runs d 0 out err) fb =
      { outcome := .ret none, log := [], fbCalls := 0 } := by
    simp [get_ssid_linux, subprocessRunTimeout, h10, hout, hjl]
  refine ⟨by rw [hstrat], by rw [hstrat], by rw [hstrat]; rfl, ?_⟩
  have hdisp : get_current_ssid jl
      { osName := "Linux", logThreshold := logT, winCmd := winC,
        prefCmd := .runs d 0 out err, fbCmd := fb, macCmd := macC } =
      get_ssid_linux jl (.runs d 0 out err) fb := by
    simp [get_current_ssid]
  simp [mainRun, hdisp, hstrat]

/-- Witness for C8: stdout whose decoding is an object without `ssid`. -/
theorem claim8_witness :
    (get_ssid_linux (fun _ => .obj none) (.runs 1 0 "x" "") (.ran 0 "Net")).outcome =
      .ret none ∧
    (get_ssid_linux (fun _ => .obj none) (.runs 1 0 "x" "") (.ran 0 "Net")).fbCalls = 0 ∧
    (get_ssid_linux (fun _ => .obj none) (.runs 1 0 "x" "") (.ran 0 "Net")).outcome.isFailed
      = false ∧
    (mainRun (fun _ => .obj none)
      { osName := "Linux", logThreshold := INFO, winCmd := .missing,
        prefCmd := .runs 1 0 "x" "", fbCmd := .ran 0 "Net",
        macCmd := .missing }).1 = .ok none :=
  claim8_object_without_ssid_field (fun _ => .obj none) (.ran 0 "Net") .missing .missing
    1 INFO "x" "" (by decide) (by decide) rfl

/-- `re.search` returns the capture of the leftmost matching position: if the
pattern matches at offset `i` and at no earlier offset, the search yields
the capture of that match. -/
theorem reSearch_leftmost (m : List Char → Option (List Char)) :
    ∀ (l : List Char) (i : Nat) (cap : List Char),
      m (l.drop i) = some cap → (∀ j, j < i → m (l.drop j) = none) →
      reSearch m l = some cap := by
  intro l
  induction l with
  | nil =>
    intro i cap hm _
    simp only [List.drop_nil] at hm
    simpa [reSearch] using hm
  | cons c rest ih =>
    intro i cap hm hnone
    cases i with
    | zero =>
      simp only [List.drop_zero] at hm
      simp [reSearch, hm]
    | succ i =>
      have h0 : m (c :: rest) = none := by
        simpa using hnone 0 (Nat.succ_pos _)
      have hstep : reSearch m (c :: rest) = reSearch m rest := by
        simp [reSearch, h0]
      rw [hstep]
      refine ih i cap ?_ (fun j hj => ?_)
      · simpa using hm
      · simpa using hnone (j + 1) (Nat.succ_lt_succ hj)

/-- Claim C9: when the Windows or macOS pattern matches at several positions
of a successful output, the strategy returns the capture of the earliest
matching position, trimmed. -/
theorem claim9_earliest_match_wins :
    (∀ (out : String) (i : Nat) (cap : List Char),
      winMatchAt (out.data.drop i) = some cap →
      (∀ j, j < i → winMatchAt (out.data.drop j) = none) →
      (get_ssid_windows (.ran 0 out)).outcome = .ret (some ⟨stripChars cap⟩)) ∧
    (∀ (out : String) (i : Nat) (cap : List Char),
      macMatchAt (out.data.drop i) = some cap →
      (∀ j, j < i → macMatchAt (out.data.drop j) = none) →
      (get_ssid_darwin (.ran 0 out)).outcome = .ret (some ⟨stripChars cap⟩)) := by
  constructor
  · intro out i cap hm hnone
    have hs := reSearch_leftmost winMatchAt out.data i cap hm hnone
    simp [get_ssid_windows, hs]
  · intro out i cap hm hnone
    have hs := reSearch_leftmost macMatchAt out.data i cap hm hnone
    simp [get_ssid_darwin, hs]

/-- Witness for C9: outputs in which the pattern matches both at offset 1
and on the second line; the first match (offset 1) wins. -/
theorem claim9_witness :
    (get_ssid_windows (.ran 0 "xSSID : a\nSSID : b")).outcome =
      .ret (some ⟨stripChars ("a".data)⟩) ∧
    (get_ssid_darwin (.ran 0 "xSSID: c\nSSID: d")).outcome =
      .ret (some ⟨stripChars ("c".data)⟩) :=
  ⟨claim9_earliest_match_wins.1 "xSSID : a\nSSID : b" 1 ("a".data)
      (by decide) (by decide),
   claim9_earliest_match_wins.2 "xSSID: c\nSSID: d" 1 ("c".data)
      (by decide) (by decide)⟩

/-- Claim C10: the resolver is a pure function of the host identification and
the behaviours of the external commands: two environments agreeing on those
inputs (the logging threshold may differ) produce the same dispatcher run
and the same process-level result. -/
theorem claim10_determinism (jl : String → JsonParse) (e₁ e₂ : Env)
    (hos : e₁.osName = e₂.osName) (hwin : e₁.winCmd = e₂.winCmd)
    (hpref : e₁.prefCmd = e₂.prefCmd) (hfb : e₁.fbCmd = e₂.fbCmd)
    (hmac : e₁.macCmd = e₂.macCmd) :
    get_current_ssid jl e₁ = get_current_ssid jl e₂ ∧
    (mainRun jl e₁).1 = (mainRun jl e₂).1 := by
  obtain ⟨os₁, t₁, w₁, p₁, f₁, m₁⟩ := e₁
  obtain ⟨os₂, t₂, w₂, p₂, f₂, m₂⟩ := e₂
  simp only at hos hwin hpref hfb hmac
  subst hos
  subst hwin
  subst hpref
  subst hfb
  subst hmac
  exact ⟨rfl, rfl⟩

/-- Witness for C10: two environments identical but for the logging
threshold (DEBUG versus ERROR) give the same dispatcher run and result. -/
theorem claim10_witness :
    get_current_ssid (fun _ => .error)
        { osName := "Linux", logThreshold := DEBUG, winCmd := .missing,
          prefCmd := .runs 1 1 "" "", fbCmd := .ran 0 "Net", macCmd := .missing } =
      get_current_ssid (fun _ => .error)
        { osName := "Linux", logThreshold := ERROR, winCmd := .missing,
          prefCmd := .runs 1 1 "" "", fbCmd := .ran 0 "Net", macCmd := .missing } ∧
    (mainRun (fun _ => .error)
        { osName := "Linux", logThreshold := DEBUG, winCmd := .missing,
          prefCmd := .runs 1 1 "" "", fbCmd := .ran 0 "Net", macCmd := .missing }).1 =
      (mainRun (fun _ => .error)
        { osName := "Linux", logThreshold := ERROR, winCmd := .missing,
          prefCmd := .runs 1 1 "" "", fbCmd := .ran 0 "Net", macCmd := .missing }).1 :=
  claim10_determinism (fun _ => .error) _ _ rfl rfl rfl rfl rfl

end SSID
